import Mathlib

/-!
# Verification of the W25Q64 flash-driver command layer

Shallow embedding of `src/W25Q64.cpp` / `src/W25Q64.hpp` (a Winbond W25Q64
SPI-flash driver).  The observable behaviour of each driver operation is its
sequence of bus events: chip-select low/high writes, SPI transaction
begin/end (with the `SPISettings` used), and the bytes clocked out on the
bus.  The SPI bus is full duplex: each transferred byte simultaneously clocks
one response byte in from the device.  The device side is abstracted as a
response oracle `List Nat → Nat` mapping the bytes received so far in the
current chip-select bracket to the next response byte; this is exactly the
information a (stateless-within-a-transaction) SPI slave can react to.

Machine integers are modelled as `Nat` with explicit `% 256` at the 8-bit
bus register (the `(byte)` casts of the source), and `addr >> k` on an
unsigned value as `addr / 2^k`.
-/

/-- Arduino `SPISettings`: clock speed in Hz, data order, data mode. -/
structure SPISettings where
  speed : Nat
  dataOrder : Nat
  dataMode : Nat
deriving DecidableEq, Repr

/-- Observable bus events emitted by the driver.  `pinModeOut` and `spiBegin`
are the one-time pin/bus configuration calls made by `init`; `csLow`/`csHigh`
are `digitalWrite(_cs_pin, LOW/HIGH)`; `beginTx`/`endTx` are
`SPI.beginTransaction`/`SPI.endTransaction`; `tx b` is `SPI.transfer(b)`. -/
inductive Ev where
  | pinModeOut
  | spiBegin
  | csLow
  | csHigh
  | beginTx (s : SPISettings)
  | endTx
  | tx (b : Nat)
deriving DecidableEq, BEq, Repr

/-- The bus as seen by the driver: the device response oracle, the bytes the
device has received so far in the current chip-select bracket (`cur`), and
the full event trace so far (`tr`). -/
structure Bus where
  resp : List Nat → Nat
  cur : List Nat
  tr : List Ev

/-- `SPI.transfer(b)`: clock out the byte `b` (8-bit register, hence
`% 256`), record it, and clock in the device's response byte. -/
def spiTransfer (s : Bus) (b : Nat) : Bus × Nat :=
  ({ s with cur := s.cur ++ [b % 256], tr := s.tr ++ [Ev.tx (b % 256)] },
   s.resp s.cur % 256)

/-- `SPI.beginTransaction(st)`. -/
def spiBeginTransaction (s : Bus) (st : SPISettings) : Bus :=
  { s with tr := s.tr ++ [Ev.beginTx st] }

/-- `SPI.endTransaction()`. -/
def spiEndTransaction (s : Bus) : Bus :=
  { s with tr := s.tr ++ [Ev.endTx] }

/-- `digitalWrite(_cs_pin, LOW)`: asserts chip select; the device starts a
fresh transaction, so its received-bytes window resets. -/
def csLowWrite (s : Bus) : Bus :=
  { s with cur := [], tr := s.tr ++ [Ev.csLow] }

/-- `digitalWrite(_cs_pin, HIGH)`: de-asserts chip select and ends the
device's current transaction. -/
def csHighWrite (s : Bus) : Bus :=
  { s with cur := [], tr := s.tr ++ [Ev.csHigh] }

-- register definitions (from W25Q64.hpp)
def W25Q64_WRITE_ENABLE : Nat := 0x06
def W25Q64_VOLATILE_WRITE_ENABLE : Nat := 0x50
def W25Q64_WRITE_DISABLE : Nat := 0x04
def W25Q64_RELEASE_POWER_DOWN : Nat := 0xAB
def W25Q64_MANUFACTURER_ID : Nat := 0x90
def W25Q64_JEDEC_ID : Nat := 0x9F
def W25Q64_READ_UNIQUE_ID : Nat := 0x4B
def W25Q64_READ_DATA : Nat := 0x03
def W25Q64_FAST_READ : Nat := 0x0B
def W25Q64_PAGE_PROGRAM : Nat := 0x02
def W25Q64_SECTOR_ERASE : Nat := 0x20
def W25Q64_BLOCK_32_ERASE : Nat := 0x52
def W25Q64_BLOCK_64_ERASE : Nat := 0xD8
def W25Q64_CHIP_ERASE : Nat := 0xC7
def W25Q64_READ_STATUS_REGISTER_1 : Nat := 0x05
def W25Q64_WRITE_STATUS_REGISTER_1 : Nat := 0x01
def W25Q64_READ_STATUS_REGISTER_2 : Nat := 0x35
def W25Q64_WRITE_STATUS_REGISTER_2 : Nat := 0x31
def W25Q64_READ_STATUS_REGISTER_3 : Nat := 0x15
def W25Q64_WRITE_STATUS_REGISTER_3 : Nat := 0x11
def W25Q64_READ_SFDP_REGISTER : Nat := 0x5A
def W25Q64_ERASE_SECURITY_REGISTER : Nat := 0x44
def W25Q64_PROGRAM_SECURITY_REGISTER : Nat := 0x42
def W25Q64_READ_SECURITY_REGISTER : Nat := 0x48
def W25Q64_ERASE_PROGRAM_SUSPEND : Nat := 0x75
def W25Q64_ERASE_PROGRAM_RESUME : Nat := 0x7A
def W25Q64_POWER_DOWN : Nat := 0xB9
def W25Q64_ENABLE_RESET : Nat := 0x66
def W25Q64_RESET_DEVICE : Nat := 0x99

-- SPI settings (from W25Q64.hpp); SPI_MODE_0 and MSBFIRST are encoded as 0
-- and 1 respectively (their concrete values are platform tokens).
def W25Q64_SPI_SPEED : Nat := 50000000
def W25Q64_READ_DATA_SPI_SPEED : Nat := 50000000
def W25Q64_SPI_MODE : Nat := 0
def W25Q64_SPI_DATA_ORDER : Nat := 1

def W25Q64_MAX_ADDRESS : Nat := 0x7FFFFF

/-- The source's `W25Q64_status_t` enum (names kept, including the
source's `UNKOWN` spelling). -/
inductive W25Q64_status_t where
  | W25Q64_OK
  | W25Q64_BUSY
  | W25Q64_UNKOWN_MANUFACTURER_ID
  | W25Q64_UNKOWN_DEVICE_ID
deriving DecidableEq, BEq, Repr

open W25Q64_status_t

/-- The driver object's fields: `_cs_pin`, `_spi_settings`, `_status`. -/
structure Handle where
  _cs_pin : Int
  _spi_settings : SPISettings
  _status : W25Q64_status_t
deriving DecidableEq, Repr

/-- `W25Q64::_select()`: chip-select low then `SPI.beginTransaction(_spi_settings)`. -/
def W25Q64._select (h : Handle) (s : Bus) : Bus :=
  spiBeginTransaction (csLowWrite s) h._spi_settings

/-- `W25Q64::_release()`: chip-select high then `SPI.endTransaction()`. -/
def W25Q64._release (_h : Handle) (s : Bus) : Bus :=
  spiEndTransaction (csHighWrite s)

/-- The 3-iteration address loop common to all addressed operations:
`for(i=0..2) SPI.transfer((byte)(addr >> ((2-i)*8)))`.  On `Nat`,
`addr >> 16 = addr / 65536` and `addr >> 8 = addr / 256`; the `(byte)` cast
is the `% 256` applied inside `spiTransfer`. -/
def sendAddr (s : Bus) (addr : Nat) : Bus :=
  let t0 := spiTransfer s (addr / 65536)
  let t1 := spiTransfer t0.1 (addr / 256)
  let t2 := spiTransfer t1.1 addr
  t2.1

/-- The payload write loop `while(len > 0){ SPI.transfer(*buff); buff++;
len--; }`.  Walking the pointer past the end of the buffer (len greater than
the buffer) is undefined in the source; the model transfers 0 there. -/
def sendBuff (s : Bus) (buff : List Nat) (len : Nat) : Bus :=
  match len, buff with
  | 0, _ => s
  | Nat.succ n, [] => sendBuff (spiTransfer s 0).1 [] n
  | Nat.succ n, b :: rest => sendBuff (spiTransfer s b).1 rest n

/-- The payload read loop `while(len > 0){ *buff = SPI.transfer(0); buff++;
len--; }`: returns the final bus and the buffer contents after the call (the
bytes written, then the untouched tail of the caller's buffer). -/
def readBuff (s : Bus) (buff : List Nat) (len : Nat) : Bus × List Nat :=
  match len with
  | 0 => (s, buff)
  | Nat.succ n =>
    let t := spiTransfer s 0
    let r := readBuff t.1 (buff.drop 1) n
    (r.1, t.2 :: r.2)

/-- `W25Q64::readStatusRegister1`: opcode 0x05, read one byte. -/
def W25Q64.readStatusRegister1 (h : Handle) (s : Bus) :
    Bus × Handle × W25Q64_status_t × Nat :=
  let s1 := W25Q64._select h s
  let t1 := spiTransfer s1 W25Q64_READ_STATUS_REGISTER_1
  let t2 := spiTransfer t1.1 0
  (W25Q64._release h t2.1, h, W25Q64_OK, t2.2)

/-- `W25Q64::readStatusRegister2`. -/
def W25Q64.readStatusRegister2 (h : Handle) (s : Bus) :
    Bus × Handle × W25Q64_status_t × Nat :=
  let s1 := W25Q64._select h s
  let t1 := spiTransfer s1 W25Q64_READ_STATUS_REGISTER_2
  let t2 := spiTransfer t1.1 0
  (W25Q64._release h t2.1, h, W25Q64_OK, t2.2)

/-- `W25Q64::readStatusRegister3`. -/
def W25Q64.readStatusRegister3 (h : Handle) (s : Bus) :
    Bus × Handle × W25Q64_status_t × Nat :=
  let s1 := W25Q64._select h s
  let t1 := spiTransfer s1 W25Q64_READ_STATUS_REGISTER_3
  let t2 := spiTransfer t1.1 0
  (W25Q64._release h t2.1, h, W25Q64_OK, t2.2)

/-- `W25Q64::busy()`: read status register 1 and test bit 0
(`if(status_reg_1 & 0b00000001) return true; return false;`). -/
def W25Q64.busy (h : Handle) (s : Bus) : Bus × Bool :=
  let r := W25Q64.readStatusRegister1 h s
  (r.1, r.2.2.2 &&& 1 != 0)

/-- `W25Q64::writeEnable()`. -/
def W25Q64.writeEnable (h : Handle) (s : Bus) : Bus × Handle × W25Q64_status_t :=
  let s1 := W25Q64._select h s
  let t1 := spiTransfer s1 W25Q64_WRITE_ENABLE
  (W25Q64._release h t1.1, h, W25Q64_OK)

/-- `W25Q64::volatileWriteEnable()`. -/
def W25Q64.volatileWriteEnable (h : Handle) (s : Bus) : Bus × Handle × W25Q64_status_t :=
  let s1 := W25Q64._select h s
  let t1 := spiTransfer s1 W25Q64_VOLATILE_WRITE_ENABLE
  (W25Q64._release h t1.1, h, W25Q64_OK)

/-- `W25Q64::writeDisable()`. -/
def W25Q64.writeDisable (h : Handle) (s : Bus) : Bus × Handle × W25Q64_status_t :=
  let s1 := W25Q64._select h s
  let t1 := spiTransfer s1 W25Q64_WRITE_DISABLE
  (W25Q64._release h t1.1, h, W25Q64_OK)

/-- `W25Q64::releasePowerDown()`. -/
def W25Q64.releasePowerDown (h : Handle) (s : Bus) : Bus × Handle × W25Q64_status_t :=
  let s1 := W25Q64._select h s
  let t1 := spiTransfer s1 W25Q64_RELEASE_POWER_DOWN
  (W25Q64._release h t1.1, h, W25Q64_OK)

/-- `W25Q64::readManufacturerId`: opcode 0x90, then a 5-byte read
`buff[0..4]`; `*manufacturer_id = buff[3]`, `*device_id = buff[4]`. -/
def W25Q64.readManufacturerId (h : Handle) (s : Bus) :
    Bus × Handle × W25Q64_status_t × Nat × Nat :=
  let s1 := W25Q64._select h s
  let t := spiTransfer s1 W25Q64_MANUFACTURER_ID
  let b0 := spiTransfer t.1 0
  let b1 := spiTransfer b0.1 0
  let b2 := spiTransfer b1.1 0
  let b3 := spiTransfer b2.1 0
  let b4 := spiTransfer b3.1 0
  (W25Q64._release h b4.1, h, W25Q64_OK, b3.2, b4.2)

/-- `W25Q64::readJedecId`: opcode 0x9F, then manufacturer, memory-type and
capacity bytes, with no dummy bytes. -/
def W25Q64.readJedecId (h : Handle) (s : Bus) :
    Bus × Handle × W25Q64_status_t × Nat × Nat × Nat :=
  let s1 := W25Q64._select h s
  let t := spiTransfer s1 W25Q64_JEDEC_ID
  let m := spiTransfer t.1 0
  let ty := spiTransfer m.1 0
  let c := spiTransfer ty.1 0
  (W25Q64._release h c.1, h, W25Q64_OK, m.2, ty.2, c.2)

/-- `W25Q64::readUniqueId`: opcode 0x4B, 4 dummy transfers, then 8 bytes
read into the caller's buffer.  NOTE: the source returns without ever
calling `_release()` (no chip-select high, no `SPI.endTransaction()`);
the model reproduces that faithfully. -/
def W25Q64.readUniqueId (h : Handle) (unique_id : List Nat) (s : Bus) :
    Bus × Handle × W25Q64_status_t × List Nat :=
  let s1 := W25Q64._select h s
  let t := spiTransfer s1 W25Q64_READ_UNIQUE_ID
  let d0 := spiTransfer t.1 0
  let d1 := spiTransfer d0.1 0
  let d2 := spiTransfer d1.1 0
  let d3 := spiTransfer d2.1 0
  let r := readBuff d3.1 unique_id 8
  (r.1, h, W25Q64_OK, r.2)

/-- `W25Q64::readData`: busy gate, then within one chip-select bracket a
second `SPI.beginTransaction` with the read-data speed, opcode 0x03, the
3-byte address, and a sequential read of `len` bytes. -/
def W25Q64.readData (h : Handle) (addr : Nat) (buff : List Nat) (len : Nat) (s : Bus) :
    Bus × Handle × W25Q64_status_t × List Nat :=
  let b := W25Q64.busy h s
  if b.2 then (b.1, h, W25Q64_BUSY, buff) else
  let s1 := W25Q64._select h b.1
  let s2 := spiBeginTransaction s1
    ⟨W25Q64_READ_DATA_SPI_SPEED, W25Q64_SPI_DATA_ORDER, W25Q64_SPI_MODE⟩
  let t := spiTransfer s2 W25Q64_READ_DATA
  let s3 := sendAddr t.1 addr
  let r := readBuff s3 buff len
  (W25Q64._release h r.1, h, W25Q64_OK, r.2)

/-- `W25Q64::fastRead`: busy gate, opcode 0x0B, 3-byte address, one dummy
byte, sequential read of `len` bytes. -/
def W25Q64.fastRead (h : Handle) (addr : Nat) (buff : List Nat) (len : Nat) (s : Bus) :
    Bus × Handle × W25Q64_status_t × List Nat :=
  let b := W25Q64.busy h s
  if b.2 then (b.1, h, W25Q64_BUSY, buff) else
  let s1 := W25Q64._select h b.1
  let t := spiTransfer s1 W25Q64_FAST_READ
  let s2 := sendAddr t.1 addr
  let d := spiTransfer s2 0
  let r := readBuff d.1 buff len
  (W25Q64._release h r.1, h, W25Q64_OK, r.2)

/-- `W25Q64::pageProgram`: busy gate, opcode 0x02, 3-byte address, then the
payload bytes. -/
def W25Q64.pageProgram (h : Handle) (addr : Nat) (buff : List Nat) (len : Nat) (s : Bus) :
    Bus × Handle × W25Q64_status_t :=
  let b := W25Q64.busy h s
  if b.2 then (b.1, h, W25Q64_BUSY) else
  let s1 := W25Q64._select h b.1
  let t := spiTransfer s1 W25Q64_PAGE_PROGRAM
  let s2 := sendAddr t.1 addr
  let s3 := sendBuff s2 buff len
  (W25Q64._release h s3, h, W25Q64_OK)

/-- `W25Q64::sectorErase`: busy gate, opcode 0x20, 3-byte address. -/
def W25Q64.sectorErase (h : Handle) (addr : Nat) (s : Bus) :
    Bus × Handle × W25Q64_status_t :=
  let b := W25Q64.busy h s
  if b.2 then (b.1, h, W25Q64_BUSY) else
  let s1 := W25Q64._select h b.1
  let t := spiTransfer s1 W25Q64_SECTOR_ERASE
  let s2 := sendAddr t.1 addr
  (W25Q64._release h s2, h, W25Q64_OK)

/-- `W25Q64::block32Erase`: busy gate, opcode 0x52, 3-byte address. -/
def W25Q64.block32Erase (h : Handle) (addr : Nat) (s : Bus) :
    Bus × Handle × W25Q64_status_t :=
  let b := W25Q64.busy h s
  if b.2 then (b.1, h, W25Q64_BUSY) else
  let s1 := W25Q64._select h b.1
  let t := spiTransfer s1 W25Q64_BLOCK_32_ERASE
  let s2 := sendAddr t.1 addr
  (W25Q64._release h s2, h, W25Q64_OK)

/-- `W25Q64::block64Erase`: busy gate, opcode 0xD8, 3-byte address. -/
def W25Q64.block64Erase (h : Handle) (addr : Nat) (s : Bus) :
    Bus × Handle × W25Q64_status_t :=
  let b := W25Q64.busy h s
  if b.2 then (b.1, h, W25Q64_BUSY) else
  let s1 := W25Q64._select h b.1
  let t := spiTransfer s1 W25Q64_BLOCK_64_ERASE
  let s2 := sendAddr t.1 addr
  (W25Q64._release h s2, h, W25Q64_OK)

/-- `W25Q64::chipErase`: busy gate, opcode 0xC7, no address. -/
def W25Q64.chipErase (h : Handle) (s : Bus) :
    Bus × Handle × W25Q64_status_t :=
  let b := W25Q64.busy h s
  if b.2 then (b.1, h, W25Q64_BUSY) else
  let s1 := W25Q64._select h b.1
  let t := spiTransfer s1 W25Q64_CHIP_ERASE
  (W25Q64._release h t.1, h, W25Q64_OK)

/-- `W25Q64::writeStatusRegister1`: busy gate, opcode 0x01, one data byte. -/
def W25Q64.writeStatusRegister1 (h : Handle) (reg : Nat) (s : Bus) :
    Bus × Handle × W25Q64_status_t :=
  let b := W25Q64.busy h s
  if b.2 then (b.1, h, W25Q64_BUSY) else
  let s1 := W25Q64._select h b.1
  let t1 := spiTransfer s1 W25Q64_WRITE_STATUS_REGISTER_1
  let t2 := spiTransfer t1.1 reg
  (W25Q64._release h t2.1, h, W25Q64_OK)

/-- `W25Q64::writeStatusRegister2`: busy gate, opcode 0x31, one data byte. -/
def W25Q64.writeStatusRegister2 (h : Handle) (reg : Nat) (s : Bus) :
    Bus × Handle × W25Q64_status_t :=
  let b := W25Q64.busy h s
  if b.2 then (b.1, h, W25Q64_BUSY) else
  let s1 := W25Q64._select h b.1
  let t1 := spiTransfer s1 W25Q64_WRITE_STATUS_REGISTER_2
  let t2 := spiTransfer t1.1 reg
  (W25Q64._release h t2.1, h, W25Q64_OK)

/-- `W25Q64::writeStatusRegister3`: busy gate, opcode 0x11, one data byte. -/
def W25Q64.writeStatusRegister3 (h : Handle) (reg : Nat) (s : Bus) :
    Bus × Handle × W25Q64_status_t :=
  let b := W25Q64.busy h s
  if b.2 then (b.1, h, W25Q64_BUSY) else
  let s1 := W25Q64._select h b.1
  let t1 := spiTransfer s1 W25Q64_WRITE_STATUS_REGISTER_3
  let t2 := spiTransfer t1.1 reg
  (W25Q64._release h t2.1, h, W25Q64_OK)

/-- `W25Q64::readSFDPRegister`: busy gate, opcode 0x5A, 3-byte address, one
dummy byte, sequential read. -/
def W25Q64.readSFDPRegister (h : Handle) (addr : Nat) (buff : List Nat) (len : Nat) (s : Bus) :
    Bus × Handle × W25Q64_status_t × List Nat :=
  let b := W25Q64.busy h s
  if b.2 then (b.1, h, W25Q64_BUSY, buff) else
  let s1 := W25Q64._select h b.1
  let t := spiTransfer s1 W25Q64_READ_SFDP_REGISTER
  let s2 := sendAddr t.1 addr
  let d := spiTransfer s2 0
  let r := readBuff d.1 buff len
  (W25Q64._release h r.1, h, W25Q64_OK, r.2)

/-- `W25Q64::eraseSecurityRegister`: busy gate, opcode 0x44, 3-byte address. -/
def W25Q64.eraseSecurityRegister (h : Handle) (addr : Nat) (s : Bus) :
    Bus × Handle × W25Q64_status_t :=
  let b := W25Q64.busy h s
  if b.2 then (b.1, h, W25Q64_BUSY) else
  let s1 := W25Q64._select h b.1
  let t := spiTransfer s1 W25Q64_ERASE_SECURITY_REGISTER
  let s2 := sendAddr t.1 addr
  (W25Q64._release h s2, h, W25Q64_OK)

/-- `W25Q64::programSecurityRegister`: busy gate, opcode 0x42, 3-byte
address, then the payload bytes. -/
def W25Q64.programSecurityRegister (h : Handle) (addr : Nat) (buff : List Nat) (len : Nat)
    (s : Bus) : Bus × Handle × W25Q64_status_t :=
  let b := W25Q64.busy h s
  if b.2 then (b.1, h, W25Q64_BUSY) else
  let s1 := W25Q64._select h b.1
  let t := spiTransfer s1 W25Q64_PROGRAM_SECURITY_REGISTER
  let s2 := sendAddr t.1 addr
  let s3 := sendBuff s2 buff len
  (W25Q64._release h s3, h, W25Q64_OK)

/-- `W25Q64::readSecurityRegister`: busy gate, opcode 0x48, 3-byte address,
one dummy byte, sequential read. -/
def W25Q64.readSecurityRegister (h : Handle) (addr : Nat) (buff : List Nat) (len : Nat)
    (s : Bus) : Bus × Handle × W25Q64_status_t × List Nat :=
  let b := W25Q64.busy h s
  if b.2 then (b.1, h, W25Q64_BUSY, buff) else
  let s1 := W25Q64._select h b.1
  let t := spiTransfer s1 W25Q64_READ_SECURITY_REGISTER
  let s2 := sendAddr t.1 addr
  let d := spiTransfer s2 0
  let r := readBuff d.1 buff len
  (W25Q64._release h r.1, h, W25Q64_OK, r.2)

/-- `W25Q64::eraseProgramSuspend()`. -/
def W25Q64.eraseProgramSuspend (h : Handle) (s : Bus) : Bus × Handle × W25Q64_status_t :=
  let s1 := W25Q64._select h s
  let t1 := spiTransfer s1 W25Q64_ERASE_PROGRAM_SUSPEND
  (W25Q64._release h t1.1, h, W25Q64_OK)

/-- `W25Q64::eraseProgramResume()`. -/
def W25Q64.eraseProgramResume (h : Handle) (s : Bus) : Bus × Handle × W25Q64_status_t :=
  let s1 := W25Q64._select h s
  let t1 := spiTransfer s1 W25Q64_ERASE_PROGRAM_RESUME
  (W25Q64._release h t1.1, h, W25Q64_OK)

/-- `W25Q64::powerDown()`. -/
def W25Q64.powerDown (h : Handle) (s : Bus) : Bus × Handle × W25Q64_status_t :=
  let s1 := W25Q64._select h s
  let t1 := spiTransfer s1 W25Q64_POWER_DOWN
  (W25Q64._release h t1.1, h, W25Q64_OK)

/-- `W25Q64::enableReset()`. -/
def W25Q64.enableReset (h : Handle) (s : Bus) : Bus × Handle × W25Q64_status_t :=
  let s1 := W25Q64._select h s
  let t1 := spiTransfer s1 W25Q64_ENABLE_RESET
  (W25Q64._release h t1.1, h, W25Q64_OK)

/-- `W25Q64::resetDevice()`. -/
def W25Q64.resetDevice (h : Handle) (s : Bus) : Bus × Handle × W25Q64_status_t :=
  let s1 := W25Q64._select h s
  let t1 := spiTransfer s1 W25Q64_RESET_DEVICE
  (W25Q64._release h t1.1, h, W25Q64_OK)

/-- `W25Q64::reset()`: busy gate, then `enableReset()` immediately followed
by `resetDevice()`. -/
def W25Q64.reset (h : Handle) (s : Bus) : Bus × Handle × W25Q64_status_t :=
  let b := W25Q64.busy h s
  if b.2 then (b.1, h, W25Q64_BUSY) else
  let r1 := W25Q64.enableReset h b.1
  let r2 := W25Q64.resetDevice h r1.1
  (r2.1, h, W25Q64_OK)

/-- `W25Q64::init(cs_pin)`: store the chip-select pin, configure it as an
output driven high, start the SPI bus, then perform the manufacturer/device
ID handshake, store its status into `_status`, and check the two IDs. -/
def W25Q64.init (h : Handle) (cs_pin : Int) (s : Bus) : Bus × Handle × W25Q64_status_t :=
  let h1 : Handle := { h with _cs_pin := cs_pin }
  let s1 : Bus := { s with tr := s.tr ++ [Ev.pinModeOut] }
  let s2 := csHighWrite s1
  let s3 : Bus := { s2 with tr := s2.tr ++ [Ev.spiBegin] }
  let r := W25Q64.readManufacturerId h1 s3
  let h2 : Handle := { h1 with _status := r.2.2.1 }
  if r.2.2.2.1 != 0xEF then (r.1, h2, W25Q64_UNKOWN_MANUFACTURER_ID)
  else if r.2.2.2.2 != 0x16 then (r.1, h2, W25Q64_UNKOWN_DEVICE_ID)
  else (r.1, h2, W25Q64_OK)

/-! ## Derived notions used to state the properties -/

/-- An empty bus with device-response oracle `resp`: nothing transferred
yet, empty trace. -/
def mkBus (resp : List Nat → Nat) : Bus := ⟨resp, [], []⟩

/-- A handle as it exists after construction: `_spi_settings` is initialized
in-class to `SPISettings(W25Q64_SPI_SPEED, W25Q64_SPI_DATA_ORDER,
W25Q64_SPI_MODE)`. -/
def defaultSettings : SPISettings :=
  ⟨W25Q64_SPI_SPEED, W25Q64_SPI_DATA_ORDER, W25Q64_SPI_MODE⟩

/-- The transaction settings `readData` switches to (source line 130). -/
def readDataSettings : SPISettings :=
  ⟨W25Q64_READ_DATA_SPI_SPEED, W25Q64_SPI_DATA_ORDER, W25Q64_SPI_MODE⟩

/-- A concrete handle for witnesses: chip-select pin 10, the in-class
default SPI settings. -/
def h0 : Handle := ⟨10, defaultSettings, W25Q64_OK⟩

/-- The busy bit reported by the device oracle: the response it gives to
the dummy byte of a status-register-1 read (after receiving opcode 0x05),
masked to bit 0 — exactly what `W25Q64::busy()` computes. -/
def busyFlag (resp : List Nat → Nat) : Bool :=
  (resp [W25Q64_READ_STATUS_REGISTER_1] % 256) &&& 1 != 0

/-- The bus events of one `busy()` call (the status-register-1 read
transaction): chip-select low, transaction open, opcode 0x05, one byte
clocked for the response, chip-select high, transaction closed. -/
def bcTr (h : Handle) : List Ev :=
  [Ev.csLow, Ev.beginTx h._spi_settings, Ev.tx W25Q64_READ_STATUS_REGISTER_1,
   Ev.tx 0, Ev.csHigh, Ev.endTx]

/-- The three transfer events of `sendAddr`: the 24 low bits of `addr`,
most-significant byte first. -/
def addrTx (addr : Nat) : List Ev :=
  [Ev.tx (addr / 65536 % 256), Ev.tx (addr / 256 % 256), Ev.tx (addr % 256)]

/-- The byte values clocked out by `sendBuff buff len`. -/
def sendBytes (buff : List Nat) (len : Nat) : List Nat :=
  match len, buff with
  | 0, _ => []
  | Nat.succ n, [] => 0 :: sendBytes [] n
  | Nat.succ n, b :: rest => b % 256 :: sendBytes rest n

/-- The bytes clocked out on the bus along a trace (the payload of the
`tx` events, in order). -/
def txBytes : List Ev → List Nat
  | [] => []
  | Ev.tx b :: rest => b :: txBytes rest
  | _ :: rest => txBytes rest

/-- The byte values the device answers during a sequential read of `len`
bytes, starting from received-bytes window `c`, and the resulting contents
of the caller's buffer. -/
def readVals (resp : List Nat → Nat) (c buff : List Nat) (len : Nat) : List Nat :=
  match len with
  | 0 => buff
  | Nat.succ n => resp c % 256 :: readVals resp (c ++ [0]) (buff.drop 1) n

/-- The clock speeds of the `beginTransaction` events of a trace, in
order. -/
def beginTxSpeeds : List Ev → List Nat
  | [] => []
  | Ev.beginTx st :: rest => st.speed :: beginTxSpeeds rest
  | _ :: rest => beginTxSpeeds rest

/-- The device-response oracle of claim C9's concrete scenario: the device
answers the 5-byte read that follows opcode 0x90 with
`{0x00, 0x00, 0x00, 0xEF, 0x16}`. -/
def idOracle : List Nat → Nat
  | [0x90, 0, 0, 0] => 0xEF
  | [0x90, 0, 0, 0, 0] => 0x16
  | _ => 0

/-! ## A device model for the round-trip claim

The flash chip itself is not code of this repository; the driver only emits
and consumes bus bytes.  For claim C8 the device side is therefore modelled
from the spec's protocol description (sections 4.2, 4.3 and 4.5). -/

/-- Modelled from the spec: the flash device state the round-trip claim
needs — the main-array contents (a byte per address) and the busy flag
(status-register-1 bit 0).  The chip is external hardware, not code under
`src/`. -/
structure Flash where
  mem : Nat → Nat
  busy : Bool

/-- Modelled from the spec: status register 1, whose bit 0 is the busy
flag. -/
def Flash.sr1 (f : Flash) : Nat := if f.busy then 1 else 0

/-- Modelled from the spec: the device's full-duplex response to the next
transferred byte, given the bytes received so far in the current
chip-select bracket.  After opcode 0x05 the device streams status register
1; after opcode 0x03 and a 3-byte big-endian address it streams the main
array from that address; otherwise it returns 0. -/
def devResp (f : Flash) (cur : List Nat) : Nat :=
  match cur with
  | 0x05 :: _ => Flash.sr1 f
  | 0x03 :: a2 :: a1 :: a0 :: rest =>
    f.mem (a2 * 65536 + a1 * 256 + a0 + rest.length) % 256
  | _ => 0

/-- Modelled from the spec: the state change caused by one completed
(chip-select bracketed) transaction.  A PAGE_PROGRAM (0x02) transaction
stores its payload at the 3-byte big-endian address and leaves the device
busy; every other transaction relevant here leaves the array unchanged. -/
def deviceTransact (f : Flash) (bytes : List Nat) : Flash :=
  match bytes with
  | 0x02 :: a2 :: a1 :: a0 :: data =>
    { mem := fun i =>
        if a2 * 65536 + a1 * 256 + a0 ≤ i ∧ i < a2 * 65536 + a1 * 256 + a0 + data.length
        then data.getD (i - (a2 * 65536 + a1 * 256 + a0)) 0
        else f.mem i,
      busy := true }
  | _ => f

/-- Modelled from the spec: run the device over a trace of bus events,
accumulating the bytes of the current chip-select bracket and applying each
completed transaction's effect when chip-select is released. -/
def deviceConsume (f : Flash) (evs : List Ev) (cur : List Nat) : Flash :=
  match evs with
  | [] => f
  | Ev.tx b :: rest => deviceConsume f rest (cur ++ [b])
  | Ev.csHigh :: rest => deviceConsume (deviceTransact f cur) rest []
  | Ev.csLow :: rest => deviceConsume f rest []
  | _ :: rest => deviceConsume f rest cur

/-! ## Run lemmas: closed forms for each operation's execution -/

/-- One `busy()` call from an arbitrary bus state: it appends exactly the
status-register-1 read transaction and reports `busyFlag`. -/
theorem busy_run (h : Handle) (s : Bus) :
    W25Q64.busy h s = ({ s with cur := [], tr := s.tr ++ bcTr h }, busyFlag s.resp) := by
  simp [W25Q64.busy, W25Q64.readStatusRegister1, W25Q64._select, W25Q64._release,
    csLowWrite, csHighWrite, spiBeginTransaction, spiEndTransaction, spiTransfer,
    bcTr, busyFlag, W25Q64_READ_STATUS_REGISTER_1, List.append_assoc]

theorem pageProgram_busy_run (h : Handle) (addr : Nat) (buff : List Nat) (len : Nat)
    (s : Bus) (hb : busyFlag s.resp = true) :
    W25Q64.pageProgram h addr buff len s =
      ({ s with cur := [], tr := s.tr ++ bcTr h }, h, W25Q64_BUSY) := by
  simp [W25Q64.pageProgram, busy_run, hb]

/-- Closed form of the address loop. -/
theorem sendAddr_run (s : Bus) (addr : Nat) :
    sendAddr s addr =
      { s with cur := s.cur ++ [addr / 65536 % 256, addr / 256 % 256, addr % 256],
               tr := s.tr ++ addrTx addr } := by
  simp [sendAddr, spiTransfer, addrTx, List.append_assoc]

/-- Closed form of the payload-write loop. -/
theorem sendBuff_run (len : Nat) (buff : List Nat) (s : Bus) :
    sendBuff s buff len =
      { s with cur := s.cur ++ sendBytes buff len,
               tr := s.tr ++ (sendBytes buff len).map Ev.tx } := by
  induction len generalizing buff s with
  | zero => simp [sendBuff, sendBytes]
  | succ n ih =>
    cases buff with
    | nil => simp [sendBuff, sendBytes, ih, spiTransfer, List.append_assoc]
    | cons b rest => simp [sendBuff, sendBytes, ih, spiTransfer, List.append_assoc]

/-- Closed form of the payload-read loop. -/
theorem readBuff_run (len : Nat) (buff : List Nat) (s : Bus) :
    readBuff s buff len =
      ({ s with cur := s.cur ++ List.replicate len 0,
                tr := s.tr ++ List.replicate len (Ev.tx 0) },
       readVals s.resp s.cur buff len) := by
  induction len generalizing buff s with
  | zero => simp [readBuff, readVals]
  | succ n ih =>
    simp [readBuff, readVals, ih, spiTransfer, List.append_assoc, List.replicate_succ]

theorem pageProgram_ok_run (h : Handle) (addr : Nat) (buff : List Nat) (len : Nat)
    (s : Bus) (hb : busyFlag s.resp = false) :
    W25Q64.pageProgram h addr buff len s =
      ({ s with cur := [],
                tr := s.tr ++ bcTr h ++
                  [Ev.csLow, Ev.beginTx h._spi_settings, Ev.tx W25Q64_PAGE_PROGRAM] ++
                  addrTx addr ++ (sendBytes buff len).map Ev.tx ++ [Ev.csHigh, Ev.endTx] },
       h, W25Q64_OK) := by
  simp [W25Q64.pageProgram, busy_run, hb, W25Q64._select, W25Q64._release,
    csLowWrite, csHighWrite, spiBeginTransaction, spiEndTransaction, spiTransfer,
    sendAddr_run, sendBuff_run, W25Q64_PAGE_PROGRAM, List.append_assoc]

theorem sectorErase_busy_run (h : Handle) (addr : Nat) (s : Bus)
    (hb : busyFlag s.resp = true) :
    W25Q64.sectorErase h addr s =
      ({ s with cur := [], tr := s.tr ++ bcTr h }, h, W25Q64_BUSY) := by
  simp [W25Q64.sectorErase, busy_run, hb]

theorem block32Erase_busy_run (h : Handle) (addr : Nat) (s : Bus)
    (hb : busyFlag s.resp = true) :
    W25Q64.block32Erase h addr s =
      ({ s with cur := [], tr := s.tr ++ bcTr h }, h, W25Q64_BUSY) := by
  simp [W25Q64.block32Erase, busy_run, hb]

theorem block64Erase_busy_run (h : Handle) (addr : Nat) (s : Bus)
    (hb : busyFlag s.resp = true) :
    W25Q64.block64Erase h addr s =
      ({ s with cur := [], tr := s.tr ++ bcTr h }, h, W25Q64_BUSY) := by
  simp [W25Q64.block64Erase, busy_run, hb]

theorem chipErase_busy_run (h : Handle) (s : Bus)
    (hb : busyFlag s.resp = true) :
    W25Q64.chipErase h s =
      ({ s with cur := [], tr := s.tr ++ bcTr h }, h, W25Q64_BUSY) := by
  simp [W25Q64.chipErase, busy_run, hb]

theorem writeStatusRegister1_busy_run (h : Handle) (reg : Nat) (s : Bus)
    (hb : busyFlag s.resp = true) :
    W25Q64.writeStatusRegister1 h reg s =
      ({ s with cur := [], tr := s.tr ++ bcTr h }, h, W25Q64_BUSY) := by
  simp [W25Q64.writeStatusRegister1, busy_run, hb]

theorem writeStatusRegister2_busy_run (h : Handle) (reg : Nat) (s : Bus)
    (hb : busyFlag s.resp = true) :
    W25Q64.writeStatusRegister2 h reg s =
      ({ s with cur := [], tr := s.tr ++ bcTr h }, h, W25Q64_BUSY) := by
  simp [W25Q64.writeStatusRegister2, busy_run, hb]

theorem writeStatusRegister3_busy_run (h : Handle) (reg : Nat) (s : Bus)
    (hb : busyFlag s.resp = true) :
    W25Q64.writeStatusRegister3 h reg s =
      ({ s with cur := [], tr := s.tr ++ bcTr h }, h, W25Q64_BUSY) := by
  simp [W25Q64.writeStatusRegister3, busy_run, hb]

theorem eraseSecurityRegister_busy_run (h : Handle) (addr : Nat) (s : Bus)
    (hb : busyFlag s.resp = true) :
    W25Q64.eraseSecurityRegister h addr s =
      ({ s with cur := [], tr := s.tr ++ bcTr h }, h, W25Q64_BUSY) := by
  simp [W25Q64.eraseSecurityRegister, busy_run, hb]

theorem programSecurityRegister_busy_run (h : Handle) (addr : Nat) (buff : List Nat)
    (len : Nat) (s : Bus) (hb : busyFlag s.resp = true) :
    W25Q64.programSecurityRegister h addr buff len s =
      ({ s with cur := [], tr := s.tr ++ bcTr h }, h, W25Q64_BUSY) := by
  simp [W25Q64.programSecurityRegister, busy_run, hb]

theorem readData_busy_run (h : Handle) (addr : Nat) (buff : List Nat) (len : Nat)
    (s : Bus) (hb : busyFlag s.resp = true) :
    W25Q64.readData h addr buff len s =
      ({ s with cur := [], tr := s.tr ++ bcTr h }, h, W25Q64_BUSY, buff) := by
  simp [W25Q64.readData, busy_run, hb]

theorem fastRead_busy_run (h : Handle) (addr : Nat) (buff : List Nat) (len : Nat)
    (s : Bus) (hb : busyFlag s.resp = true) :
    W25Q64.fastRead h addr buff len s =
      ({ s with cur := [], tr := s.tr ++ bcTr h }, h, W25Q64_BUSY, buff) := by
  simp [W25Q64.fastRead, busy_run, hb]

theorem readSFDPRegister_busy_run (h : Handle) (addr : Nat) (buff : List Nat) (len : Nat)
    (s : Bus) (hb : busyFlag s.resp = true) :
    W25Q64.readSFDPRegister h addr buff len s =
      ({ s with cur := [], tr := s.tr ++ bcTr h }, h, W25Q64_BUSY, buff) := by
  simp [W25Q64.readSFDPRegister, busy_run, hb]

theorem readSecurityRegister_busy_run (h : Handle) (addr : Nat) (buff : List Nat) (len : Nat)
    (s : Bus) (hb : busyFlag s.resp = true) :
    W25Q64.readSecurityRegister h addr buff len s =
      ({ s with cur := [], tr := s.tr ++ bcTr h }, h, W25Q64_BUSY, buff) := by
  simp [W25Q64.readSecurityRegister, busy_run, hb]

theorem reset_busy_run (h : Handle) (s : Bus) (hb : busyFlag s.resp = true) :
    W25Q64.reset h s =
      ({ s with cur := [], tr := s.tr ++ bcTr h }, h, W25Q64_BUSY) := by
  simp [W25Q64.reset, busy_run, hb]

theorem sectorErase_ok_run (h : Handle) (addr : Nat) (s : Bus)
    (hb : busyFlag s.resp = false) :
    W25Q64.sectorErase h addr s =
      ({ s with cur := [],
                tr := s.tr ++ bcTr h ++
                  [Ev.csLow, Ev.beginTx h._spi_settings, Ev.tx W25Q64_SECTOR_ERASE] ++
                  addrTx addr ++ [Ev.csHigh, Ev.endTx] }, h, W25Q64_OK) := by
  simp [W25Q64.sectorErase, busy_run, hb, W25Q64._select, W25Q64._release,
    csLowWrite, csHighWrite, spiBeginTransaction, spiEndTransaction, spiTransfer,
    sendAddr_run, W25Q64_SECTOR_ERASE, List.append_assoc]

theorem block32Erase_ok_run (h : Handle) (addr : Nat) (s : Bus)
    (hb : busyFlag s.resp = false) :
    W25Q64.block32Erase h addr s =
      ({ s with cur := [],
                tr := s.tr ++ bcTr h ++
                  [Ev.csLow, Ev.beginTx h._spi_settings, Ev.tx W25Q64_BLOCK_32_ERASE] ++
                  addrTx addr ++ [Ev.csHigh, Ev.endTx] }, h, W25Q64_OK) := by
  simp [W25Q64.block32Erase, busy_run, hb, W25Q64._select, W25Q64._release,
    csLowWrite, csHighWrite, spiBeginTransaction, spiEndTransaction, spiTransfer,
    sendAddr_run, W25Q64_BLOCK_32_ERASE, List.append_assoc]

theorem block64Erase_ok_run (h : Handle) (addr : Nat) (s : Bus)
    (hb : busyFlag s.resp = false) :
    W25Q64.block64Erase h addr s =
      ({ s with cur := [],
                tr := s.tr ++ bcTr h ++
                  [Ev.csLow, Ev.beginTx h._spi_settings, Ev.tx W25Q64_BLOCK_64_ERASE] ++
                  addrTx addr ++ [Ev.csHigh, Ev.endTx] }, h, W25Q64_OK) := by
  simp [W25Q64.block64Erase, busy_run, hb, W25Q64._select, W25Q64._release,
    csLowWrite, csHighWrite, spiBeginTransaction, spiEndTransaction, spiTransfer,
    sendAddr_run, W25Q64_BLOCK_64_ERASE, List.append_assoc]

theorem eraseSecurityRegister_ok_run (h : Handle) (addr : Nat) (s : Bus)
    (hb : busyFlag s.resp = false) :
    W25Q64.eraseSecurityRegister h addr s =
      ({ s with cur := [],
                tr := s.tr ++ bcTr h ++
                  [Ev.csLow, Ev.beginTx h._spi_settings, Ev.tx W25Q64_ERASE_SECURITY_REGISTER] ++
                  addrTx addr ++ [Ev.csHigh, Ev.endTx] }, h, W25Q64_OK) := by
  simp [W25Q64.eraseSecurityRegister, busy_run, hb, W25Q64._select, W25Q64._release,
    csLowWrite, csHighWrite, spiBeginTransaction, spiEndTransaction, spiTransfer,
    sendAddr_run, W25Q64_ERASE_SECURITY_REGISTER, List.append_assoc]

theorem programSecurityRegister_ok_run (h : Handle) (addr : Nat) (buff : List Nat)
    (len : Nat) (s : Bus) (hb : busyFlag s.resp = false) :
    W25Q64.programSecurityRegister h addr buff len s =
      ({ s with cur := [],
                tr := s.tr ++ bcTr h ++
                  [Ev.csLow, Ev.beginTx h._spi_settings, Ev.tx W25Q64_PROGRAM_SECURITY_REGISTER] ++
                  addrTx addr ++ (sendBytes buff len).map Ev.tx ++ [Ev.csHigh, Ev.endTx] },
       h, W25Q64_OK) := by
  simp [W25Q64.programSecurityRegister, busy_run, hb, W25Q64._select, W25Q64._release,
    csLowWrite, csHighWrite, spiBeginTransaction, spiEndTransaction, spiTransfer,
    sendAddr_run, sendBuff_run, W25Q64_PROGRAM_SECURITY_REGISTER, List.append_assoc]

theorem readData_ok_run (h : Handle) (addr : Nat) (buff : List Nat) (len : Nat)
    (s : Bus) (hb : busyFlag s.resp = false) :
    W25Q64.readData h addr buff len s =
      ({ s with cur := [],
                tr := s.tr ++ bcTr h ++
                  [Ev.csLow, Ev.beginTx h._spi_settings, Ev.beginTx readDataSettings,
                   Ev.tx W25Q64_READ_DATA] ++
                  addrTx addr ++ List.replicate len (Ev.tx 0) ++ [Ev.csHigh, Ev.endTx] },
       h, W25Q64_OK,
       readVals s.resp
         [W25Q64_READ_DATA, addr / 65536 % 256, addr / 256 % 256, addr % 256] buff len) := by
  simp [W25Q64.readData, busy_run, hb, W25Q64._select, W25Q64._release,
    csLowWrite, csHighWrite, spiBeginTransaction, spiEndTransaction, spiTransfer,
    sendAddr_run, readBuff_run, readDataSettings, W25Q64_READ_DATA, List.append_assoc]

theorem fastRead_ok_run (h : Handle) (addr : Nat) (buff : List Nat) (len : Nat)
    (s : Bus) (hb : busyFlag s.resp = false) :
    W25Q64.fastRead h addr buff len s =
      ({ s with cur := [],
                tr := s.tr ++ bcTr h ++
                  [Ev.csLow, Ev.beginTx h._spi_settings, Ev.tx W25Q64_FAST_READ] ++
                  addrTx addr ++ [Ev.tx 0] ++ List.replicate len (Ev.tx 0) ++
                  [Ev.csHigh, Ev.endTx] },
       h, W25Q64_OK,
       readVals s.resp
         [W25Q64_FAST_READ, addr / 65536 % 256, addr / 256 % 256, addr % 256, 0] buff len) := by
  simp [W25Q64.fastRead, busy_run, hb, W25Q64._select, W25Q64._release,
    csLowWrite, csHighWrite, spiBeginTransaction, spiEndTransaction, spiTransfer,
    sendAddr_run, readBuff_run, W25Q64_FAST_READ, List.append_assoc]

theorem readSFDPRegister_ok_run (h : Handle) (addr : Nat) (buff : List Nat) (len : Nat)
    (s : Bus) (hb : busyFlag s.resp = false) :
    W25Q64.readSFDPRegister h addr buff len s =
      ({ s with cur := [],
                tr := s.tr ++ bcTr h ++
                  [Ev.csLow, Ev.beginTx h._spi_settings, Ev.tx W25Q64_READ_SFDP_REGISTER] ++
                  addrTx addr ++ [Ev.tx 0] ++ List.replicate len (Ev.tx 0) ++
                  [Ev.csHigh, Ev.endTx] },
       h, W25Q64_OK,
       readVals s.resp
         [W25Q64_READ_SFDP_REGISTER, addr / 65536 % 256, addr / 256 % 256, addr % 256, 0]
         buff len) := by
  simp [W25Q64.readSFDPRegister, busy_run, hb, W25Q64._select, W25Q64._release,
    csLowWrite, csHighWrite, spiBeginTransaction, spiEndTransaction, spiTransfer,
    sendAddr_run, readBuff_run, W25Q64_READ_SFDP_REGISTER, List.append_assoc]

theorem readSecurityRegister_ok_run (h : Handle) (addr : Nat) (buff : List Nat) (len : Nat)
    (s : Bus) (hb : busyFlag s.resp = false) :
    W25Q64.readSecurityRegister h addr buff len s =
      ({ s with cur := [],
                tr := s.tr ++ bcTr h ++
                  [Ev.csLow, Ev.beginTx h._spi_settings, Ev.tx W25Q64_READ_SECURITY_REGISTER] ++
                  addrTx addr ++ [Ev.tx 0] ++ List.replicate len (Ev.tx 0) ++
                  [Ev.csHigh, Ev.endTx] },
       h, W25Q64_OK,
       readVals s.resp
         [W25Q64_READ_SECURITY_REGISTER, addr / 65536 % 256, addr / 256 % 256, addr % 256, 0]
         buff len) := by
  simp [W25Q64.readSecurityRegister, busy_run, hb, W25Q64._select, W25Q64._release,
    csLowWrite, csHighWrite, spiBeginTransaction, spiEndTransaction, spiTransfer,
    sendAddr_run, readBuff_run, W25Q64_READ_SECURITY_REGISTER, List.append_assoc]

theorem reset_ok_run (h : Handle) (s : Bus) (hb : busyFlag s.resp = false) :
    W25Q64.reset h s =
      ({ s with cur := [],
                tr := s.tr ++ bcTr h ++
                  [Ev.csLow, Ev.beginTx h._spi_settings, Ev.tx W25Q64_ENABLE_RESET,
                   Ev.csHigh, Ev.endTx,
                   Ev.csLow, Ev.beginTx h._spi_settings, Ev.tx W25Q64_RESET_DEVICE,
                   Ev.csHigh, Ev.endTx] }, h, W25Q64_OK) := by
  simp [W25Q64.reset, busy_run, hb, W25Q64.enableReset, W25Q64.resetDevice,
    W25Q64._select, W25Q64._release, csLowWrite, csHighWrite, spiBeginTransaction,
    spiEndTransaction, spiTransfer, W25Q64_ENABLE_RESET, W25Q64_RESET_DEVICE,
    List.append_assoc]

theorem readStatusRegister1_run (h : Handle) (s : Bus) :
    W25Q64.readStatusRegister1 h s =
      ({ s with cur := [],
                tr := s.tr ++ [Ev.csLow, Ev.beginTx h._spi_settings,
                  Ev.tx W25Q64_READ_STATUS_REGISTER_1, Ev.tx 0, Ev.csHigh, Ev.endTx] },
       h, W25Q64_OK, s.resp [W25Q64_READ_STATUS_REGISTER_1] % 256) := by
  simp [W25Q64.readStatusRegister1, W25Q64._select, W25Q64._release,
    csLowWrite, csHighWrite, spiBeginTransaction, spiEndTransaction, spiTransfer,
    W25Q64_READ_STATUS_REGISTER_1, List.append_assoc]

theorem readStatusRegister2_run (h : Handle) (s : Bus) :
    W25Q64.readStatusRegister2 h s =
      ({ s with cur := [],
                tr := s.tr ++ [Ev.csLow, Ev.beginTx h._spi_settings,
                  Ev.tx W25Q64_READ_STATUS_REGISTER_2, Ev.tx 0, Ev.csHigh, Ev.endTx] },
       h, W25Q64_OK, s.resp [W25Q64_READ_STATUS_REGISTER_2] % 256) := by
  simp [W25Q64.readStatusRegister2, W25Q64._select, W25Q64._release,
    csLowWrite, csHighWrite, spiBeginTransaction, spiEndTransaction, spiTransfer,
    W25Q64_READ_STATUS_REGISTER_2, List.append_assoc]

theorem readStatusRegister3_run (h : Handle) (s : Bus) :
    W25Q64.readStatusRegister3 h s =
      ({ s with cur := [],
                tr := s.tr ++ [Ev.csLow, Ev.beginTx h._spi_settings,
                  Ev.tx W25Q64_READ_STATUS_REGISTER_3, Ev.tx 0, Ev.csHigh, Ev.endTx] },
       h, W25Q64_OK, s.resp [W25Q64_READ_STATUS_REGISTER_3] % 256) := by
  simp [W25Q64.readStatusRegister3, W25Q64._select, W25Q64._release,
    csLowWrite, csHighWrite, spiBeginTransaction, spiEndTransaction, spiTransfer,
    W25Q64_READ_STATUS_REGISTER_3, List.append_assoc]

theorem readManufacturerId_run (h : Handle) (s : Bus) :
    W25Q64.readManufacturerId h s =
      ({ s with cur := [],
                tr := s.tr ++ [Ev.csLow, Ev.beginTx h._spi_settings,
                  Ev.tx W25Q64_MANUFACTURER_ID, Ev.tx 0, Ev.tx 0, Ev.tx 0, Ev.tx 0, Ev.tx 0,
                  Ev.csHigh, Ev.endTx] },
       h, W25Q64_OK,
       s.resp [W25Q64_MANUFACTURER_ID, 0, 0, 0] % 256,
       s.resp [W25Q64_MANUFACTURER_ID, 0, 0, 0, 0] % 256) := by
  simp [W25Q64.readManufacturerId, W25Q64._select, W25Q64._release,
    csLowWrite, csHighWrite, spiBeginTransaction, spiEndTransaction, spiTransfer,
    W25Q64_MANUFACTURER_ID, List.append_assoc]

theorem readJedecId_run (h : Handle) (s : Bus) :
    W25Q64.readJedecId h s =
      ({ s with cur := [],
                tr := s.tr ++ [Ev.csLow, Ev.beginTx h._spi_settings,
                  Ev.tx W25Q64_JEDEC_ID, Ev.tx 0, Ev.tx 0, Ev.tx 0, Ev.csHigh, Ev.endTx] },
       h, W25Q64_OK,
       s.resp [W25Q64_JEDEC_ID] % 256,
       s.resp [W25Q64_JEDEC_ID, 0] % 256,
       s.resp [W25Q64_JEDEC_ID, 0, 0] % 256) := by
  simp [W25Q64.readJedecId, W25Q64._select, W25Q64._release,
    csLowWrite, csHighWrite, spiBeginTransaction, spiEndTransaction, spiTransfer,
    W25Q64_JEDEC_ID, List.append_assoc]

theorem readUniqueId_run (h : Handle) (unique_id : List Nat) (s : Bus) :
    W25Q64.readUniqueId h unique_id s =
      ({ s with cur := [W25Q64_READ_UNIQUE_ID, 0, 0, 0, 0] ++ List.replicate 8 0,
                tr := s.tr ++ [Ev.csLow, Ev.beginTx h._spi_settings,
                  Ev.tx W25Q64_READ_UNIQUE_ID, Ev.tx 0, Ev.tx 0, Ev.tx 0, Ev.tx 0] ++
                  List.replicate 8 (Ev.tx 0) },
       h, W25Q64_OK,
       readVals s.resp [W25Q64_READ_UNIQUE_ID, 0, 0, 0, 0] unique_id 8) := by
  simp [W25Q64.readUniqueId, W25Q64._select, csLowWrite, spiBeginTransaction,
    spiTransfer, readBuff_run, W25Q64_READ_UNIQUE_ID, List.append_assoc]

/-! ## Arithmetic facts about the 3-byte address encoding -/

theorem addrTx_mod24 (A : Nat) : addrTx (A % 16777216) = addrTx A := by
  have h1 : A % 16777216 / 65536 % 256 = A / 65536 % 256 := by omega
  have h2 : A % 16777216 / 256 % 256 = A / 256 % 256 := by omega
  have h3 : A % 16777216 % 256 = A % 256 := by omega
  simp [addrTx, h1, h2, h3]

theorem addr_decode (A : Nat) :
    A / 65536 % 256 * 65536 + A / 256 % 256 * 256 + A % 256 = A % 16777216 := by
  omega

/-! ## Device-model lemmas for the round-trip claim -/

theorem deviceConsume_map_tx (f : Flash) (bytes : List Nat) (rest : List Ev) (c : List Nat) :
    deviceConsume f (bytes.map Ev.tx ++ rest) c = deviceConsume f rest (c ++ bytes) := by
  induction bytes generalizing c with
  | nil => simp
  | cons b bs ih => simp [deviceConsume, ih, List.append_assoc]

theorem sendBytes_of_bytes (data : List Nat) (hdata : ∀ b ∈ data, b < 256) :
    sendBytes data data.length = data := by
  induction data with
  | nil => simp [sendBytes]
  | cons b rest ih =>
    have hb : b % 256 = b := Nat.mod_eq_of_lt (hdata b (by simp))
    simp [sendBytes, hb]
    exact ih (fun x hx => hdata x (by simp [hx]))

theorem list_getD_range (l : List Nat) :
    (List.range l.length).map (fun k => l.getD k 0) = l := by
  induction l with
  | nil => rfl
  | cons a t ih =>
    have h1 : List.range (a :: t).length = 0 :: (List.range t.length).map Nat.succ := by
      rw [List.length_cons]; exact List.range_succ_eq_map t.length
    rw [h1, List.map_cons, List.map_map]
    refine congrArg (a :: ·) ?_
    calc ((List.range t.length).map ((fun k => (a :: t).getD k 0) ∘ Nat.succ))
        = (List.range t.length).map (fun k => t.getD k 0) :=
          List.map_congr_left (fun k _ => rfl)
      _ = t := ih

theorem readVals_devResp (f : Flash) (a2 a1 a0 : Nat) (len : Nat) :
    ∀ (j : Nat) (buff : List Nat),
    readVals (devResp f) (3 :: a2 :: a1 :: a0 :: List.replicate j 0) buff len =
      (List.range len).map
        (fun k => f.mem (a2 * 65536 + a1 * 256 + a0 + j + k) % 256) ++ buff.drop len := by
  induction len with
  | zero => intro j buff; simp [readVals]
  | succ n ih =>
    intro j buff
    have hstep : (3 :: a2 :: a1 :: a0 :: List.replicate j 0) ++ [0] =
        3 :: a2 :: a1 :: a0 :: List.replicate (j + 1) 0 := by
      simp [List.replicate_succ']
    have hresp : devResp f (3 :: a2 :: a1 :: a0 :: List.replicate j 0) % 256 =
        f.mem (a2 * 65536 + a1 * 256 + a0 + j + 0) % 256 := by
      simp [devResp, Nat.mod_mod_of_dvd _ dvd_rfl]
    have htail : (List.range n).map
          ((fun k => f.mem (a2 * 65536 + a1 * 256 + a0 + j + k) % 256) ∘ Nat.succ) =
        (List.range n).map
          (fun k => f.mem (a2 * 65536 + a1 * 256 + a0 + (j + 1) + k) % 256) := by
      refine List.map_congr_left ?_
      intro k _
      have harg : a2 * 65536 + a1 * 256 + a0 + j + Nat.succ k
           = a2 * 65536 + a1 * 256 + a0 + (j + 1) + k := by omega
      simp only [Function.comp_apply, harg]
    have hrange : List.range (n + 1) = 0 :: (List.range n).map Nat.succ :=
      List.range_succ_eq_map n
    simp only [readVals, hstep, ih (j + 1) (buff.drop 1), hrange, List.map_cons,
      List.map_map, hresp, htail, List.drop_drop, List.cons_append, Nat.add_comm 1 n]

theorem busyFlag_devResp (f : Flash) (hf : f.busy = false) :
    busyFlag (devResp f) = false := by
  simp [busyFlag, devResp, Flash.sr1, hf, W25Q64_READ_STATUS_REGISTER_1]

/-- Device-side effect of one `pageProgram` call issued to a non-busy flash:
the payload lands at the 24-bit address decoded from the transmitted bytes,
and the device goes busy. -/
theorem deviceConsume_pageProgram (f : Flash) (h : Handle) (A : Nat) (data : List Nat)
    (hdata : ∀ b ∈ data, b < 256) (hf : f.busy = false) :
    deviceConsume f (W25Q64.pageProgram h A data data.length (mkBus (devResp f))).1.tr [] =
      { mem := fun i =>
          if A % 16777216 ≤ i ∧ i < A % 16777216 + data.length
          then data.getD (i - A % 16777216) 0 else f.mem i,
        busy := true } := by
  have hb : busyFlag (mkBus (devResp f)).resp = false := busyFlag_devResp f hf
  rw [pageProgram_ok_run h A data data.length (mkBus (devResp f)) hb,
    sendBytes_of_bytes data hdata]
  simp only [mkBus, List.nil_append, bcTr, addrTx, W25Q64_PAGE_PROGRAM,
    W25Q64_READ_STATUS_REGISTER_1, List.cons_append, List.append_assoc, List.nil_append]
  simp only [deviceConsume, deviceTransact]
  rw [deviceConsume_map_tx]
  simp only [deviceConsume, List.cons_append, List.nil_append, deviceTransact,
    addr_decode A]

theorem mkBus_resp (r : List Nat → Nat) : (mkBus r).resp = r := rfl

/-- What `readData`'s read loop collects from a non-busy flash device:
the device streams memory from the 24-bit address decoded from the three
transmitted address bytes. -/
theorem readVals_flash_mem (m : Nat → Nat) (A : Nat) (buff : List Nat) (len : Nat) :
    readVals (devResp ⟨m, false⟩)
      (3 :: A / 65536 % 256 :: A / 256 % 256 :: A % 256 :: List.replicate 0 0) buff len =
    (List.range len).map (fun k => m (A % 16777216 + k) % 256) ++ buff.drop len := by
  rw [readVals_devResp]
  refine congrArg (· ++ buff.drop len) ?_
  refine List.map_congr_left ?_
  intro k _
  have harg : A / 65536 % 256 * 65536 + A / 256 % 256 * 256 + A % 256 + 0 + k
      = A % 16777216 + k := by omega
  simp only [harg]

/-! ## Claim theorems -/

/-- C8: for every address `A` and byte sequence `data`, programming
`data` at `A` with `pageProgram` against a non-busy flash (the external
write-enable is a documented precondition the driver does not check, so it
is not part of the modelled protocol), letting the device apply the
transaction (after which it reports busy), waiting until it is non-busy
again, and reading `data.length` bytes at `A` with `readData` yields
exactly the programmed bytes, in order and unchanged. -/
theorem c8_program_read_roundtrip (h : Handle) (mem : Nat → Nat) (A : Nat)
    (data buff : List Nat) (hdata : ∀ b ∈ data, b < 256)
    (hbuff : buff.length = data.length) :
    (W25Q64.pageProgram h A data data.length (mkBus (devResp ⟨mem, false⟩))).2.2 =
      W25Q64_OK ∧
    (deviceConsume ⟨mem, false⟩
        (W25Q64.pageProgram h A data data.length (mkBus (devResp ⟨mem, false⟩))).1.tr []).busy
      = true ∧
    (W25Q64.readData h A buff data.length
        (mkBus (devResp ⟨(deviceConsume ⟨mem, false⟩
            (W25Q64.pageProgram h A data data.length
              (mkBus (devResp ⟨mem, false⟩))).1.tr []).mem, false⟩))).2.2.1 = W25Q64_OK ∧
    (W25Q64.readData h A buff data.length
        (mkBus (devResp ⟨(deviceConsume ⟨mem, false⟩
            (W25Q64.pageProgram h A data data.length
              (mkBus (devResp ⟨mem, false⟩))).1.tr []).mem, false⟩))).2.2.2 = data := by
  have hprog := deviceConsume_pageProgram ⟨mem, false⟩ h A data hdata rfl
  refine ⟨?_, ?_, ?_, ?_⟩
  · rw [pageProgram_ok_run _ _ _ _ _ (busyFlag_devResp _ rfl)]
  · rw [hprog]
  · rw [hprog]
    rw [readData_ok_run _ _ _ _ _ (busyFlag_devResp _ rfl)]
  · rw [hprog]
    rw [readData_ok_run _ _ _ _ _ (busyFlag_devResp _ rfl)]
    show readVals _ _ _ _ = data
    have hc : ([W25Q64_READ_DATA, A / 65536 % 256, A / 256 % 256, A % 256] : List Nat)
        = 3 :: A / 65536 % 256 :: A / 256 % 256 :: A % 256 :: List.replicate 0 0 := by
      simp [W25Q64_READ_DATA]
    rw [mkBus_resp, hc, readVals_flash_mem]
    rw [List.drop_eq_nil_of_le (le_of_eq hbuff), List.append_nil]
    have hmap : ∀ k ∈ List.range data.length,
        (Flash.mk (fun i =>
            if A % 16777216 ≤ i ∧ i < A % 16777216 + data.length
            then data.getD (i - A % 16777216) 0
            else (Flash.mk mem false).mem i) true).mem (A % 16777216 + k) % 256
        = data.getD k 0 := by
      intro k hk
      have hk' : k < data.length := List.mem_range.mp hk
      show (if A % 16777216 ≤ A % 16777216 + k ∧
              A % 16777216 + k < A % 16777216 + data.length
            then data.getD (A % 16777216 + k - A % 16777216) 0
            else mem (A % 16777216 + k)) % 256
          = data.getD k 0
      rw [if_pos (by omega), show A % 16777216 + k - A % 16777216 = k by omega]
      have hlt : data.getD k 0 < 256 := by
        rw [List.getD_eq_getElem data 0 hk']
        exact hdata _ (List.getElem_mem hk')
      exact Nat.mod_eq_of_lt hlt
    rw [List.map_congr_left hmap, list_getD_range]

/-- Witness for C8 at a concrete input: program `[11, 22, 33]` at address
0x010203 of an all-zero flash, then read it back. -/
theorem c8_witness :
    (∀ b ∈ ([11, 22, 33] : List Nat), b < 256) ∧
    ([0, 0, 0] : List Nat).length = ([11, 22, 33] : List Nat).length ∧
    (W25Q64.readData h0 66051 [0, 0, 0] ([11, 22, 33] : List Nat).length
        (mkBus (devResp ⟨(deviceConsume ⟨fun _ => 0, false⟩
            (W25Q64.pageProgram h0 66051 [11, 22, 33] ([11, 22, 33] : List Nat).length
              (mkBus (devResp ⟨fun _ => 0, false⟩))).1.tr []).mem, false⟩))).2.2.2
      = [11, 22, 33] :=
  ⟨by decide, by decide,
    (c8_program_read_roundtrip h0 (fun _ => 0) 66051 [11, 22, 33] [0, 0, 0]
      (by decide) (by decide)).2.2.2⟩

/-- C1: every mutating operation (`pageProgram`, `sectorErase`,
`block32Erase`, `block64Erase`, `chipErase`, `writeStatusRegister1/2/3`,
`eraseSecurityRegister`, `programSecurityRegister`), called while the
device's busy flag (status-register-1 bit 0) is set, opens no transaction of
its own and returns BUSY: its entire bus activity is the busy check's
status-register-1 read (`bcTr`), and in particular its opcode — and hence
any address or payload byte — is never clocked out. -/
theorem c1_busy_gate_blocks_mutating_ops (h : Handle) (resp : List Nat → Nat)
    (addr reg len : Nat) (buff : List Nat) (hb : busyFlag resp = true) :
    (W25Q64.pageProgram h addr buff len (mkBus resp) = (⟨resp, [], bcTr h⟩, h, W25Q64_BUSY) ∧
      W25Q64_PAGE_PROGRAM ∉ txBytes (bcTr h)) ∧
    (W25Q64.sectorErase h addr (mkBus resp) = (⟨resp, [], bcTr h⟩, h, W25Q64_BUSY) ∧
      W25Q64_SECTOR_ERASE ∉ txBytes (bcTr h)) ∧
    (W25Q64.block32Erase h addr (mkBus resp) = (⟨resp, [], bcTr h⟩, h, W25Q64_BUSY) ∧
      W25Q64_BLOCK_32_ERASE ∉ txBytes (bcTr h)) ∧
    (W25Q64.block64Erase h addr (mkBus resp) = (⟨resp, [], bcTr h⟩, h, W25Q64_BUSY) ∧
      W25Q64_BLOCK_64_ERASE ∉ txBytes (bcTr h)) ∧
    (W25Q64.chipErase h (mkBus resp) = (⟨resp, [], bcTr h⟩, h, W25Q64_BUSY) ∧
      W25Q64_CHIP_ERASE ∉ txBytes (bcTr h)) ∧
    (W25Q64.writeStatusRegister1 h reg (mkBus resp) = (⟨resp, [], bcTr h⟩, h, W25Q64_BUSY) ∧
      W25Q64_WRITE_STATUS_REGISTER_1 ∉ txBytes (bcTr h)) ∧
    (W25Q64.writeStatusRegister2 h reg (mkBus resp) = (⟨resp, [], bcTr h⟩, h, W25Q64_BUSY) ∧
      W25Q64_WRITE_STATUS_REGISTER_2 ∉ txBytes (bcTr h)) ∧
    (W25Q64.writeStatusRegister3 h reg (mkBus resp) = (⟨resp, [], bcTr h⟩, h, W25Q64_BUSY) ∧
      W25Q64_WRITE_STATUS_REGISTER_3 ∉ txBytes (bcTr h)) ∧
    (W25Q64.eraseSecurityRegister h addr (mkBus resp) = (⟨resp, [], bcTr h⟩, h, W25Q64_BUSY) ∧
      W25Q64_ERASE_SECURITY_REGISTER ∉ txBytes (bcTr h)) ∧
    (W25Q64.programSecurityRegister h addr buff len (mkBus resp) =
        (⟨resp, [], bcTr h⟩, h, W25Q64_BUSY) ∧
      W25Q64_PROGRAM_SECURITY_REGISTER ∉ txBytes (bcTr h)) := by
  refine ⟨⟨?_, ?_⟩, ⟨?_, ?_⟩, ⟨?_, ?_⟩, ⟨?_, ?_⟩, ⟨?_, ?_⟩, ⟨?_, ?_⟩, ⟨?_, ?_⟩,
    ⟨?_, ?_⟩, ⟨?_, ?_⟩, ⟨?_, ?_⟩⟩ <;>
  simp [pageProgram_busy_run, sectorErase_busy_run, block32Erase_busy_run,
    block64Erase_busy_run, chipErase_busy_run, writeStatusRegister1_busy_run,
    writeStatusRegister2_busy_run, writeStatusRegister3_busy_run,
    eraseSecurityRegister_busy_run, programSecurityRegister_busy_run, hb,
    mkBus, bcTr, txBytes, W25Q64_PAGE_PROGRAM, W25Q64_SECTOR_ERASE,
    W25Q64_BLOCK_32_ERASE, W25Q64_BLOCK_64_ERASE, W25Q64_CHIP_ERASE,
    W25Q64_WRITE_STATUS_REGISTER_1, W25Q64_WRITE_STATUS_REGISTER_2,
    W25Q64_WRITE_STATUS_REGISTER_3, W25Q64_ERASE_SECURITY_REGISTER,
    W25Q64_PROGRAM_SECURITY_REGISTER, W25Q64_READ_STATUS_REGISTER_1]

/-- Witness for C1: a device whose status-register-1 response is 1 (busy)
rejects `pageProgram` with BUSY after only the busy-check transaction. -/
theorem c1_witness :
    busyFlag (fun _ => 1) = true ∧
    W25Q64.pageProgram h0 1193046 [1, 2] 2 (mkBus (fun _ => 1)) =
      (⟨fun _ => 1, [], bcTr h0⟩, h0, W25Q64_BUSY) :=
  ⟨by decide,
    (c1_busy_gate_blocks_mutating_ops h0 (fun _ => 1) 1193046 0 2 [1, 2] (by decide)).1.1⟩

/-- C10: a busy-gated operation rejected with BUSY performs exactly one
status-register-1 read transaction — chip-select low, transaction open with
the handle's settings, opcode 0x05, one byte clocked for the response,
chip-select high, transaction closed (`bcTr`, spelled out in the first
conjunct) — and nothing else: the caller-supplied buffer is returned
untouched, and the returned handle equals the input handle in every
field. -/
theorem c10_busy_reject_single_status_read (h : Handle) (resp : List Nat → Nat)
    (addr reg len : Nat) (buff : List Nat) (hb : busyFlag resp = true) :
    bcTr h = [Ev.csLow, Ev.beginTx h._spi_settings, Ev.tx 5, Ev.tx 0,
      Ev.csHigh, Ev.endTx] ∧
    W25Q64.pageProgram h addr buff len (mkBus resp) = (⟨resp, [], bcTr h⟩, h, W25Q64_BUSY) ∧
    W25Q64.sectorErase h addr (mkBus resp) = (⟨resp, [], bcTr h⟩, h, W25Q64_BUSY) ∧
    W25Q64.block32Erase h addr (mkBus resp) = (⟨resp, [], bcTr h⟩, h, W25Q64_BUSY) ∧
    W25Q64.block64Erase h addr (mkBus resp) = (⟨resp, [], bcTr h⟩, h, W25Q64_BUSY) ∧
    W25Q64.chipErase h (mkBus resp) = (⟨resp, [], bcTr h⟩, h, W25Q64_BUSY) ∧
    W25Q64.writeStatusRegister1 h reg (mkBus resp) = (⟨resp, [], bcTr h⟩, h, W25Q64_BUSY) ∧
    W25Q64.writeStatusRegister2 h reg (mkBus resp) = (⟨resp, [], bcTr h⟩, h, W25Q64_BUSY) ∧
    W25Q64.writeStatusRegister3 h reg (mkBus resp) = (⟨resp, [], bcTr h⟩, h, W25Q64_BUSY) ∧
    W25Q64.eraseSecurityRegister h addr (mkBus resp) = (⟨resp, [], bcTr h⟩, h, W25Q64_BUSY) ∧
    W25Q64.programSecurityRegister h addr buff len (mkBus resp) =
      (⟨resp, [], bcTr h⟩, h, W25Q64_BUSY) ∧
    W25Q64.readData h addr buff len (mkBus resp) =
      (⟨resp, [], bcTr h⟩, h, W25Q64_BUSY, buff) ∧
    W25Q64.fastRead h addr buff len (mkBus resp) =
      (⟨resp, [], bcTr h⟩, h, W25Q64_BUSY, buff) ∧
    W25Q64.readSFDPRegister h addr buff len (mkBus resp) =
      (⟨resp, [], bcTr h⟩, h, W25Q64_BUSY, buff) ∧
    W25Q64.readSecurityRegister h addr buff len (mkBus resp) =
      (⟨resp, [], bcTr h⟩, h, W25Q64_BUSY, buff) ∧
    W25Q64.reset h (mkBus resp) = (⟨resp, [], bcTr h⟩, h, W25Q64_BUSY) := by
  refine ⟨by simp [bcTr, W25Q64_READ_STATUS_REGISTER_1], ?_, ?_, ?_, ?_, ?_, ?_, ?_, ?_,
    ?_, ?_, ?_, ?_, ?_, ?_, ?_⟩ <;>
  simp [pageProgram_busy_run, sectorErase_busy_run, block32Erase_busy_run,
    block64Erase_busy_run, chipErase_busy_run, writeStatusRegister1_busy_run,
    writeStatusRegister2_busy_run, writeStatusRegister3_busy_run,
    eraseSecurityRegister_busy_run, programSecurityRegister_busy_run,
    readData_busy_run, fastRead_busy_run, readSFDPRegister_busy_run,
    readSecurityRegister_busy_run, reset_busy_run, hb, mkBus]

/-- Witness for C10: the busy device rejects `readData` with BUSY, leaving
the buffer and handle untouched after only the status-register read. -/
theorem c10_witness :
    busyFlag (fun _ => 255) = true ∧
    W25Q64.readData h0 7 [9, 9] 2 (mkBus (fun _ => 255)) =
      (⟨fun _ => 255, [], bcTr h0⟩, h0, W25Q64_BUSY, [9, 9]) :=
  ⟨by decide,
    (c10_busy_reject_single_status_read h0 (fun _ => 255) 7 0 2 [9, 9]
      (by decide)).2.2.2.2.2.2.2.2.2.2.2.2.1⟩

/-- Counterexample to C2: the claim says the read-only operations
`readData`, `fastRead`, `readSFDPRegister` and `readSecurityRegister` never
perform a busy check and never return BUSY; in fact all four are busy-gated
in the source (lines 126, 149, 306, 365) and return BUSY on a device whose
status-register-1 response has bit 0 set. -/
theorem c2_counterexample :
    (W25Q64.readData h0 0 [] 0 (mkBus (fun _ => 1))).2.2.1 = W25Q64_BUSY ∧
    (W25Q64.fastRead h0 0 [] 0 (mkBus (fun _ => 1))).2.2.1 = W25Q64_BUSY ∧
    (W25Q64.readSFDPRegister h0 0 [] 0 (mkBus (fun _ => 1))).2.2.1 = W25Q64_BUSY ∧
    (W25Q64.readSecurityRegister h0 0 [] 0 (mkBus (fun _ => 1))).2.2.1 = W25Q64_BUSY := by
  decide

/-- C2 as amended: the identification operations (`readManufacturerId`,
`readJedecId`, `readUniqueId`) and the status-register reads
(`readStatusRegister1/2/3`) never perform a busy check and never return
BUSY — they return OK and emit a fixed transaction independent of every
device response; but the payload read operations `readData`, `fastRead`,
`readSFDPRegister` and `readSecurityRegister` do check busy first and
return BUSY whenever the busy flag is set. -/
theorem c2_read_only_busy_amended (h : Handle) (resp : List Nat → Nat)
    (addr len : Nat) (buff uid : List Nat) :
    ((W25Q64.readManufacturerId h (mkBus resp)).2.2.1 = W25Q64_OK ∧
      (W25Q64.readManufacturerId h (mkBus resp)).1.tr =
        [Ev.csLow, Ev.beginTx h._spi_settings, Ev.tx W25Q64_MANUFACTURER_ID,
         Ev.tx 0, Ev.tx 0, Ev.tx 0, Ev.tx 0, Ev.tx 0, Ev.csHigh, Ev.endTx]) ∧
    ((W25Q64.readJedecId h (mkBus resp)).2.2.1 = W25Q64_OK ∧
      (W25Q64.readJedecId h (mkBus resp)).1.tr =
        [Ev.csLow, Ev.beginTx h._spi_settings, Ev.tx W25Q64_JEDEC_ID,
         Ev.tx 0, Ev.tx 0, Ev.tx 0, Ev.csHigh, Ev.endTx]) ∧
    ((W25Q64.readUniqueId h uid (mkBus resp)).2.2.1 = W25Q64_OK ∧
      (W25Q64.readUniqueId h uid (mkBus resp)).1.tr =
        [Ev.csLow, Ev.beginTx h._spi_settings, Ev.tx W25Q64_READ_UNIQUE_ID,
         Ev.tx 0, Ev.tx 0, Ev.tx 0, Ev.tx 0] ++ List.replicate 8 (Ev.tx 0)) ∧
    ((W25Q64.readStatusRegister1 h (mkBus resp)).2.2.1 = W25Q64_OK ∧
      (W25Q64.readStatusRegister1 h (mkBus resp)).1.tr =
        [Ev.csLow, Ev.beginTx h._spi_settings, Ev.tx W25Q64_READ_STATUS_REGISTER_1,
         Ev.tx 0, Ev.csHigh, Ev.endTx]) ∧
    ((W25Q64.readStatusRegister2 h (mkBus resp)).2.2.1 = W25Q64_OK ∧
      (W25Q64.readStatusRegister2 h (mkBus resp)).1.tr =
        [Ev.csLow, Ev.beginTx h._spi_settings, Ev.tx W25Q64_READ_STATUS_REGISTER_2,
         Ev.tx 0, Ev.csHigh, Ev.endTx]) ∧
    ((W25Q64.readStatusRegister3 h (mkBus resp)).2.2.1 = W25Q64_OK ∧
      (W25Q64.readStatusRegister3 h (mkBus resp)).1.tr =
        [Ev.csLow, Ev.beginTx h._spi_settings, Ev.tx W25Q64_READ_STATUS_REGISTER_3,
         Ev.tx 0, Ev.csHigh, Ev.endTx]) ∧
    (busyFlag resp = true →
      (W25Q64.readData h addr buff len (mkBus resp)).2.2.1 = W25Q64_BUSY ∧
      (W25Q64.fastRead h addr buff len (mkBus resp)).2.2.1 = W25Q64_BUSY ∧
      (W25Q64.readSFDPRegister h addr buff len (mkBus resp)).2.2.1 = W25Q64_BUSY ∧
      (W25Q64.readSecurityRegister h addr buff len (mkBus resp)).2.2.1 = W25Q64_BUSY) := by
  refine ⟨⟨?_, ?_⟩, ⟨?_, ?_⟩, ⟨?_, ?_⟩, ⟨?_, ?_⟩, ⟨?_, ?_⟩, ⟨?_, ?_⟩, fun hb => ?_⟩
  case refine_13 =>
    have hb' : busyFlag (mkBus resp).resp = true := hb
    exact ⟨by rw [readData_busy_run _ _ _ _ _ hb'],
      by rw [fastRead_busy_run _ _ _ _ _ hb'],
      by rw [readSFDPRegister_busy_run _ _ _ _ _ hb'],
      by rw [readSecurityRegister_busy_run _ _ _ _ _ hb']⟩
  all_goals
    simp [readManufacturerId_run, readJedecId_run, readUniqueId_run,
      readStatusRegister1_run, readStatusRegister2_run, readStatusRegister3_run, mkBus]

/-- Witness for C2's amended claim: a busy device (status-register-1
response 1) makes `readData` return BUSY, while `readJedecId` still
returns OK. -/
theorem c2_witness :
    busyFlag (fun _ => 1) = true ∧
    (W25Q64.readData h0 4660 [7] 1 (mkBus (fun _ => 1))).2.2.1 = W25Q64_BUSY ∧
    (W25Q64.readJedecId h0 (mkBus (fun _ => 1))).2.2.1 = W25Q64_OK :=
  ⟨by decide,
    ((c2_read_only_busy_amended h0 (fun _ => 1) 4660 1 [7] []).2.2.2.2.2.2 (by decide)).1,
    (c2_read_only_busy_amended h0 (fun _ => 1) 4660 1 [7] []).2.1.1⟩

/-- C3 fails on the code: `readUniqueId` (source lines 109–122) calls
`_select()` — chip-select low plus `SPI.beginTransaction` — and clocks 13
bytes (opcode 0x4B, 4 dummies, 8 data reads), but returns without ever
calling `_release()`: its trace contains one `csLow` and one
`beginTransaction` yet no `csHigh` and no `endTransaction`, so chip-select
stays asserted and the transaction stays open.  Every other operation in
the driver pairs `_select()`/`_release()`, so the omission contradicts the
driver's own transaction discipline. -/
theorem c3_readUniqueId_leaks_transaction :
    (W25Q64.readUniqueId h0 [0, 0, 0, 0, 0, 0, 0, 0]
        (mkBus (fun _ => 0))).2.2.1 = W25Q64_OK ∧
    (W25Q64.readUniqueId h0 [0, 0, 0, 0, 0, 0, 0, 0]
        (mkBus (fun _ => 0))).1.tr.count Ev.csLow = 1 ∧
    (W25Q64.readUniqueId h0 [0, 0, 0, 0, 0, 0, 0, 0]
        (mkBus (fun _ => 0))).1.tr.count (Ev.beginTx h0._spi_settings) = 1 ∧
    (txBytes (W25Q64.readUniqueId h0 [0, 0, 0, 0, 0, 0, 0, 0]
        (mkBus (fun _ => 0))).1.tr).length = 13 ∧
    (W25Q64.readUniqueId h0 [0, 0, 0, 0, 0, 0, 0, 0]
        (mkBus (fun _ => 0))).1.tr.count Ev.csHigh = 0 ∧
    (W25Q64.readUniqueId h0 [0, 0, 0, 0, 0, 0, 0, 0]
        (mkBus (fun _ => 0))).1.tr.count Ev.endTx = 0 := by
  decide

/-- C4: `init(cs_pin)` performs the handshake once and nothing afterwards:
its whole effect is the pin/bus configuration plus the one
manufacturer/device-ID transaction, the stored handle keeps the new
chip-select pin with `_status = OK` (the handshake's return), and the
returned status is OK iff the two ID bytes are 0xEF and 0x16 — with
`UNKOWN_MANUFACTURER_ID` when the manufacturer byte differs, and otherwise
`UNKOWN_DEVICE_ID` when the device byte differs.  The two ID bytes are the
device's responses at offsets 3 and 4 of the 5-byte read. -/
theorem c4_init_id_handshake (h : Handle) (cs_pin : Int) (resp : List Nat → Nat) :
    W25Q64.init h cs_pin (mkBus resp) =
      (⟨resp, [],
        [Ev.pinModeOut, Ev.csHigh, Ev.spiBegin, Ev.csLow, Ev.beginTx h._spi_settings,
         Ev.tx W25Q64_MANUFACTURER_ID, Ev.tx 0, Ev.tx 0, Ev.tx 0, Ev.tx 0, Ev.tx 0,
         Ev.csHigh, Ev.endTx]⟩,
       ⟨cs_pin, h._spi_settings, W25Q64_OK⟩,
       if resp [W25Q64_MANUFACTURER_ID, 0, 0, 0] % 256 != 0xEF
       then W25Q64_UNKOWN_MANUFACTURER_ID
       else if resp [W25Q64_MANUFACTURER_ID, 0, 0, 0, 0] % 256 != 0x16
       then W25Q64_UNKOWN_DEVICE_ID
       else W25Q64_OK) := by
  simp only [W25Q64.init, mkBus, csHighWrite]
  rw [readManufacturerId_run]
  simp
  by_cases h1 : resp [W25Q64_MANUFACTURER_ID, 0, 0, 0] % 256 = 239 <;>
    by_cases h2 : resp [W25Q64_MANUFACTURER_ID, 0, 0, 0, 0] % 256 = 22 <;>
    simp [h1, h2]

/-- C5: every addressed operation transmits, immediately after its opcode,
exactly the three events `addrTx addr` — by definition the bytes
`addr >> 16 & 0xFF`, `addr >> 8 & 0xFF`, `addr & 0xFF`, i.e. the 24
least-significant bits of the address, most-significant byte first (first
conjunct) — and its entire result is unchanged when the address is reduced
mod 2^24, so bits above bit 23 are never transmitted (second conjunct of
each pair). -/
theorem c5_addressed_ops_24bit_big_endian (h : Handle) (resp : List Nat → Nat)
    (addr len : Nat) (buff : List Nat) (hb : busyFlag resp = false) :
    (addrTx addr = [Ev.tx (addr / 65536 % 256), Ev.tx (addr / 256 % 256),
      Ev.tx (addr % 256)]) ∧
    ((W25Q64.pageProgram h addr buff len (mkBus resp)).1.tr =
        bcTr h ++ [Ev.csLow, Ev.beginTx h._spi_settings, Ev.tx W25Q64_PAGE_PROGRAM] ++
        addrTx addr ++ (sendBytes buff len).map Ev.tx ++ [Ev.csHigh, Ev.endTx] ∧
      W25Q64.pageProgram h (addr % 16777216) buff len (mkBus resp) =
        W25Q64.pageProgram h addr buff len (mkBus resp)) ∧
    ((W25Q64.sectorErase h addr (mkBus resp)).1.tr =
        bcTr h ++ [Ev.csLow, Ev.beginTx h._spi_settings, Ev.tx W25Q64_SECTOR_ERASE] ++
        addrTx addr ++ [Ev.csHigh, Ev.endTx] ∧
      W25Q64.sectorErase h (addr % 16777216) (mkBus resp) =
        W25Q64.sectorErase h addr (mkBus resp)) ∧
    ((W25Q64.block32Erase h addr (mkBus resp)).1.tr =
        bcTr h ++ [Ev.csLow, Ev.beginTx h._spi_settings, Ev.tx W25Q64_BLOCK_32_ERASE] ++
        addrTx addr ++ [Ev.csHigh, Ev.endTx] ∧
      W25Q64.block32Erase h (addr % 16777216) (mkBus resp) =
        W25Q64.block32Erase h addr (mkBus resp)) ∧
    ((W25Q64.block64Erase h addr (mkBus resp)).1.tr =
        bcTr h ++ [Ev.csLow, Ev.beginTx h._spi_settings, Ev.tx W25Q64_BLOCK_64_ERASE] ++
        addrTx addr ++ [Ev.csHigh, Ev.endTx] ∧
      W25Q64.block64Erase h (addr % 16777216) (mkBus resp) =
        W25Q64.block64Erase h addr (mkBus resp)) ∧
    ((W25Q64.readData h addr buff len (mkBus resp)).1.tr =
        bcTr h ++ [Ev.csLow, Ev.beginTx h._spi_settings, Ev.beginTx readDataSettings,
          Ev.tx W25Q64_READ_DATA] ++
        addrTx addr ++ List.replicate len (Ev.tx 0) ++ [Ev.csHigh, Ev.endTx] ∧
      W25Q64.readData h (addr % 16777216) buff len (mkBus resp) =
        W25Q64.readData h addr buff len (mkBus resp)) ∧
    ((W25Q64.fastRead h addr buff len (mkBus resp)).1.tr =
        bcTr h ++ [Ev.csLow, Ev.beginTx h._spi_settings, Ev.tx W25Q64_FAST_READ] ++
        addrTx addr ++ [Ev.tx 0] ++ List.replicate len (Ev.tx 0) ++ [Ev.csHigh, Ev.endTx] ∧
      W25Q64.fastRead h (addr % 16777216) buff len (mkBus resp) =
        W25Q64.fastRead h addr buff len (mkBus resp)) ∧
    ((W25Q64.readSFDPRegister h addr buff len (mkBus resp)).1.tr =
        bcTr h ++ [Ev.csLow, Ev.beginTx h._spi_settings, Ev.tx W25Q64_READ_SFDP_REGISTER] ++
        addrTx addr ++ [Ev.tx 0] ++ List.replicate len (Ev.tx 0) ++ [Ev.csHigh, Ev.endTx] ∧
      W25Q64.readSFDPRegister h (addr % 16777216) buff len (mkBus resp) =
        W25Q64.readSFDPRegister h addr buff len (mkBus resp)) ∧
    ((W25Q64.eraseSecurityRegister h addr (mkBus resp)).1.tr =
        bcTr h ++ [Ev.csLow, Ev.beginTx h._spi_settings,
          Ev.tx W25Q64_ERASE_SECURITY_REGISTER] ++
        addrTx addr ++ [Ev.csHigh, Ev.endTx] ∧
      W25Q64.eraseSecurityRegister h (addr % 16777216) (mkBus resp) =
        W25Q64.eraseSecurityRegister h addr (mkBus resp)) ∧
    ((W25Q64.programSecurityRegister h addr buff len (mkBus resp)).1.tr =
        bcTr h ++ [Ev.csLow, Ev.beginTx h._spi_settings,
          Ev.tx W25Q64_PROGRAM_SECURITY_REGISTER] ++
        addrTx addr ++ (sendBytes buff len).map Ev.tx ++ [Ev.csHigh, Ev.endTx] ∧
      W25Q64.programSecurityRegister h (addr % 16777216) buff len (mkBus resp) =
        W25Q64.programSecurityRegister h addr buff len (mkBus resp)) ∧
    ((W25Q64.readSecurityRegister h addr buff len (mkBus resp)).1.tr =
        bcTr h ++ [Ev.csLow, Ev.beginTx h._spi_settings,
          Ev.tx W25Q64_READ_SECURITY_REGISTER] ++
        addrTx addr ++ [Ev.tx 0] ++ List.replicate len (Ev.tx 0) ++ [Ev.csHigh, Ev.endTx] ∧
      W25Q64.readSecurityRegister h (addr % 16777216) buff len (mkBus resp) =
        W25Q64.readSecurityRegister h addr buff len (mkBus resp)) := by
  have e1 : addr % 16777216 / 65536 % 256 = addr / 65536 % 256 := by omega
  have e2 : addr % 16777216 / 256 % 256 = addr / 256 % 256 := by omega
  have e3 : addr % 16777216 % 256 = addr % 256 := by omega
  refine ⟨rfl, ⟨?_, ?_⟩, ⟨?_, ?_⟩, ⟨?_, ?_⟩, ⟨?_, ?_⟩, ⟨?_, ?_⟩, ⟨?_, ?_⟩, ⟨?_, ?_⟩,
    ⟨?_, ?_⟩, ⟨?_, ?_⟩, ⟨?_, ?_⟩⟩ <;>
  simp [pageProgram_ok_run, sectorErase_ok_run, block32Erase_ok_run, block64Erase_ok_run,
    readData_ok_run, fastRead_ok_run, readSFDPRegister_ok_run,
    eraseSecurityRegister_ok_run, programSecurityRegister_ok_run,
    readSecurityRegister_ok_run, hb, mkBus, addrTx, e1, e2, e3]

/-- Witness for C5: with a non-busy device, `pageProgram` at an address
with bits set above bit 23 behaves exactly as at that address mod 2^24. -/
theorem c5_witness :
    busyFlag (fun _ => 0) = false ∧
    W25Q64.pageProgram h0 (2309737967 % 16777216) [5] 1 (mkBus (fun _ => 0)) =
      W25Q64.pageProgram h0 2309737967 [5] 1 (mkBus (fun _ => 0)) :=
  ⟨by decide,
    (c5_addressed_ops_24bit_big_endian h0 (fun _ => 0) 2309737967 1 [5] (by decide)).2.1.2⟩

/-- Counterexample to C6: the claim says `readData` reconfigures the bus to
a *lower* clock frequency for its transaction.  In the source the dedicated
read-data rate `W25Q64_READ_DATA_SPI_SPEED` (50000000, header line 55)
equals the default `W25Q64_SPI_SPEED` (50000000, line 54): on a concrete
call the transaction-begin events carry the speeds 50000000 and 50000000 —
the second (the `readData` reconfiguration) equals the handle's default
speed instead of being lower. -/
theorem c6_counterexample :
    beginTxSpeeds (W25Q64.readData h0 4 [] 0 (mkBus (fun _ => 0))).1.tr =
      [W25Q64_SPI_SPEED, W25Q64_SPI_SPEED, W25Q64_READ_DATA_SPI_SPEED] ∧
    readDataSettings.speed = W25Q64_READ_DATA_SPI_SPEED ∧
    h0._spi_settings.speed = W25Q64_SPI_SPEED ∧
    ¬ W25Q64_READ_DATA_SPI_SPEED < W25Q64_SPI_SPEED := by
  refine ⟨by decide, by decide, by decide, by decide⟩

/-- C6 as amended: `readData` reconfigures the bus — inside its single
chip-select bracket, after `_select()`'s `beginTransaction` with the
handle's settings — to the dedicated read-data settings, whose
chip-mandated maximum clock rate is configured equal to (not lower than)
the default 50 MHz; the reconfiguration is confined to that transaction,
and the next transaction on the handle opens with the handle's default
settings again. -/
theorem c6_read_data_clock_amended (h : Handle) (resp : List Nat → Nat)
    (addr len : Nat) (buff : List Nat) (hb : busyFlag resp = false) :
    (W25Q64.readData h addr buff len (mkBus resp)).1.tr =
      bcTr h ++ [Ev.csLow, Ev.beginTx h._spi_settings, Ev.beginTx readDataSettings,
        Ev.tx W25Q64_READ_DATA] ++
      addrTx addr ++ List.replicate len (Ev.tx 0) ++ [Ev.csHigh, Ev.endTx] ∧
    readDataSettings.speed = W25Q64_SPI_SPEED ∧
    (W25Q64.readStatusRegister1 h
        (W25Q64.readData h addr buff len (mkBus resp)).1).1.tr =
      (W25Q64.readData h addr buff len (mkBus resp)).1.tr ++
      [Ev.csLow, Ev.beginTx h._spi_settings, Ev.tx W25Q64_READ_STATUS_REGISTER_1,
       Ev.tx 0, Ev.csHigh, Ev.endTx] := by
  refine ⟨?_, by decide, ?_⟩ <;>
  simp [readData_ok_run, readStatusRegister1_run, hb, mkBus]

/-- Witness for C6's amended claim at a concrete input. -/
theorem c6_witness :
    busyFlag (fun _ => 0) = false ∧
    (W25Q64.readData h0 66051 [0] 1 (mkBus (fun _ => 0))).1.tr =
      bcTr h0 ++ [Ev.csLow, Ev.beginTx h0._spi_settings, Ev.beginTx readDataSettings,
        Ev.tx W25Q64_READ_DATA] ++
      addrTx 66051 ++ List.replicate 1 (Ev.tx 0) ++ [Ev.csHigh, Ev.endTx] :=
  ⟨by decide,
    (c6_read_data_clock_amended h0 (fun _ => 0) 66051 1 [0] (by decide)).1⟩

/-- C7: `reset()` checks the busy flag first.  Busy: it returns BUSY after
only the busy check, and neither the enable-reset opcode 0x66 nor the
reset-device opcode 0x99 appears among the clocked-out bytes.  Not busy: it
returns OK and the clocked-out bytes are the busy check's `[0x05, 0x00]`
followed immediately by 0x66 and then 0x99. -/
theorem c7_reset_sequence (h : Handle) (resp : List Nat → Nat) :
    (busyFlag resp = true →
      W25Q64.reset h (mkBus resp) = (⟨resp, [], bcTr h⟩, h, W25Q64_BUSY) ∧
      W25Q64_ENABLE_RESET ∉ txBytes (bcTr h) ∧
      W25Q64_RESET_DEVICE ∉ txBytes (bcTr h)) ∧
    (busyFlag resp = false →
      (W25Q64.reset h (mkBus resp)).2.2 = W25Q64_OK ∧
      txBytes (W25Q64.reset h (mkBus resp)).1.tr =
        [W25Q64_READ_STATUS_REGISTER_1, 0, W25Q64_ENABLE_RESET, W25Q64_RESET_DEVICE]) := by
  constructor
  · intro hb
    have hb' : busyFlag (mkBus resp).resp = true := hb
    refine ⟨by rw [reset_busy_run _ _ hb']; rfl, ?_, ?_⟩ <;>
    simp [bcTr, txBytes, W25Q64_ENABLE_RESET, W25Q64_RESET_DEVICE,
      W25Q64_READ_STATUS_REGISTER_1]
  · intro hb
    have hb' : busyFlag (mkBus resp).resp = false := hb
    rw [reset_ok_run _ _ hb']
    refine ⟨rfl, ?_⟩
    simp [bcTr, txBytes, mkBus, W25Q64_ENABLE_RESET, W25Q64_RESET_DEVICE,
      W25Q64_READ_STATUS_REGISTER_1]

/-- Witness for C7, both branches: a busy device makes `reset()` return
BUSY after only the status read; a non-busy device yields the byte sequence
0x05, 0x00, 0x66, 0x99 and OK. -/
theorem c7_witness :
    busyFlag (fun _ => 1) = true ∧
    W25Q64.reset h0 (mkBus (fun _ => 1)) = (⟨fun _ => 1, [], bcTr h0⟩, h0, W25Q64_BUSY) ∧
    busyFlag (fun _ => 0) = false ∧
    txBytes (W25Q64.reset h0 (mkBus (fun _ => 0))).1.tr =
      [W25Q64_READ_STATUS_REGISTER_1, 0, W25Q64_ENABLE_RESET, W25Q64_RESET_DEVICE] :=
  ⟨by decide,
    ((c7_reset_sequence h0 (fun _ => 1)).1 (by decide)).1,
    by decide,
    ((c7_reset_sequence h0 (fun _ => 0)).2 (by decide)).2⟩

/-- C9: `readManufacturerId` transmits opcode 0x90 and then clocks 5 bytes;
the device's 5-byte response occupies offsets 0–4 (responses to the five
zero transfers after the opcode), and the driver stores offset 3 to
`*manufacturer_id` and offset 4 to `*device_id`.  In particular, a
transport answering `{0x00, 0x00, 0x00, 0xEF, 0x16}` (`idOracle`) yields
manufacturer 0xEF, device 0x16, status OK. -/
theorem c9_manufacturer_id_offsets (h : Handle) (resp : List Nat → Nat) :
    W25Q64.readManufacturerId h (mkBus resp) =
      (⟨resp, [], [Ev.csLow, Ev.beginTx h._spi_settings, Ev.tx W25Q64_MANUFACTURER_ID,
          Ev.tx 0, Ev.tx 0, Ev.tx 0, Ev.tx 0, Ev.tx 0, Ev.csHigh, Ev.endTx]⟩,
       h, W25Q64_OK,
       resp [W25Q64_MANUFACTURER_ID, 0, 0, 0] % 256,
       resp [W25Q64_MANUFACTURER_ID, 0, 0, 0, 0] % 256) ∧
    (W25Q64.readManufacturerId h0 (mkBus idOracle)).2.2 =
      (W25Q64_OK, 0xEF, 0x16) := by
  refine ⟨?_, by decide⟩
  simp [readManufacturerId_run, mkBus]
